import Mathlib

/-!
Verification model of the operandi broker workers
(src/broker/operandi_broker/job_submit_worker.py and
src/broker/operandi_broker/job_status_worker.py).

Each worker consumes one message per callback invocation.  External
collaborators (message decoding, the database, the HPC executor and
transfer gateway, the RabbitMQ channel) are modelled by an environment
record that fixes the outcome of every external call the handler can
make.  A callback run is a pure function from the environment and the
current database state to a chronological trace of effects together
with an outcome: either the callback returned normally or an uncaught
exception propagated out of it.  The database state reached after a run
is obtained by folding the trace's database effects.
-/

/-- Workflow job states, from operandi_utils.constants.StateJob as used by
the two workers. -/
inductive StateJob
  | QUEUED
  | TRANSFERRING_TO_HPC
  | PENDING
  | RUNNING
  | TRANSFERRING_FROM_HPC
  | SUCCESS
  | FAILED
deriving DecidableEq, Repr

/-- Workspace states, from operandi_utils.constants.StateWorkspace as used by
the two workers. -/
inductive StateWorkspace
  | QUEUED
  | TRANSFERRING_TO_HPC
  | PENDING
  | TRANSFERRING_FROM_HPC
  | READY
deriving DecidableEq, Repr

/-- Native slurm scheduler job states (the remote_state vocabulary). -/
inductive SlurmJobState
  | PENDING
  | QUEUED
  | RUNNING
  | COMPLETING
  | COMPLETED
  | FAILED
  | CANCELLED
  | TIMEOUT
  | NODE_FAIL
  | OUT_OF_MEMORY
  | REVOKED
deriving DecidableEq, Repr

/-- Modelled from the spec: StateJob.convert_from_slurm_job lives in
operandi_utils.constants, which is not among the provided source files.
The spec requires a deterministic, total conversion from every remote
scheduler state to an internal job state: completed maps to SUCCESS;
failed, cancelled, timed-out and the other failure vocabulary map to
FAILED; queued/pending map to PENDING; running states map to the
externally-observed RUNNING (so an unchanged running job produces no
internal change via the old-state guard in the status worker). -/
def StateJob.convert_from_slurm_job : SlurmJobState → StateJob
  | SlurmJobState.PENDING => StateJob.PENDING
  | SlurmJobState.QUEUED => StateJob.PENDING
  | SlurmJobState.RUNNING => StateJob.RUNNING
  | SlurmJobState.COMPLETING => StateJob.RUNNING
  | SlurmJobState.COMPLETED => StateJob.SUCCESS
  | SlurmJobState.FAILED => StateJob.FAILED
  | SlurmJobState.CANCELLED => StateJob.FAILED
  | SlurmJobState.TIMEOUT => StateJob.FAILED
  | SlurmJobState.NODE_FAIL => StateJob.FAILED
  | SlurmJobState.OUT_OF_MEMORY => StateJob.FAILED
  | SlurmJobState.REVOKED => StateJob.FAILED

/-- Exception classes distinguished by the status worker's callback:
it catches ValueError around the state-handling step and lets every
other exception class propagate. -/
inductive ExcClass
  | valueError
  | otherError
deriving DecidableEq, Repr

/-- Outcome of one call to an external collaborator: success, or an
exception of a given class. -/
abbrev CallRes := Option ExcClass

/-- Observable effects of a callback run, in chronological order.
Database effects carry the written values; HPC effects and the channel
acknowledgement are recorded for ordering and counting. -/
inductive Ev
  | ackMessage
  | dbUpdateJob (s : StateJob)
  | dbUpdateWorkspace (s : StateWorkspace) (fileGroups : Option (List String))
  | dbUpdateHpcSlurmJob (s : SlurmJobState)
  | dbCreateHpcSlurmJob (remoteId : String)
  | dbIncStats (succ failed : Nat)
  | hpcCheckSlurmJobState
  | hpcPackAndPut
  | hpcTriggerSlurm
  | hpcDownloadLog
  | hpcDownloadResults
  | disconnect
deriving DecidableEq, Repr

/-- The database records relevant to one workflow job: the WorkflowJob,
its Workspace, its RemoteJobHandle (hpc slurm job record, counted so the
uniqueness invariant is expressible) and the user's ProcessingStats. -/
structure DBState where
  jobState : StateJob
  wsState : StateWorkspace
  wsFileGroups : List String
  wsPagesAmount : Nat
  slurmState : SlurmJobState
  slurmHandles : Nat
  slurmRemoteId : Option String
  pagesSucceed : Nat
  pagesFailed : Nat
deriving DecidableEq, Repr

/-- Effect of a single event on the database records.  A workspace
update without a file_groups argument leaves the file groups unchanged,
matching sync_db_update_workspace called with only a state. -/
def applyEv (db : DBState) : Ev → DBState
  | Ev.dbUpdateJob s => { db with jobState := s }
  | Ev.dbUpdateWorkspace s fgs =>
      { db with wsState := s, wsFileGroups := fgs.getD db.wsFileGroups }
  | Ev.dbUpdateHpcSlurmJob s => { db with slurmState := s }
  | Ev.dbCreateHpcSlurmJob rid =>
      { db with slurmHandles := db.slurmHandles + 1, slurmRemoteId := some rid }
  | Ev.dbIncStats s f =>
      { db with pagesSucceed := db.pagesSucceed + s, pagesFailed := db.pagesFailed + f }
  | _ => db

/-- Database state after a trace of events. -/
def runDB (db : DBState) (t : List Ev) : DBState := t.foldl applyEv db

/-- Whether an event is the channel acknowledgement. -/
def Ev.isAck : Ev → Bool
  | Ev.ackMessage => true
  | _ => false

/-- Number of acknowledgements issued in a trace. -/
def countAcks (t : List Ev) : Nat := t.countP Ev.isAck

/-- Whether the callback returned normally or an uncaught exception
propagated out of it (terminating the consume loop). -/
inductive Outcome
  | completed
  | crashed
deriving DecidableEq, Repr

/-- A fallible external call: on success it contributes its event, on an
exception it contributes nothing and the exception class. -/
def stepCall (r : CallRes) (e : Ev) : List Ev × Option ExcClass :=
  match r with
  | some c => ([], some c)
  | none => ([e], none)

/-- Sequence two fallible steps: the second runs only when the first
did not raise. -/
def stepSeq (a b : List Ev × Option ExcClass) : List Ev × Option ExcClass :=
  match a with
  | (t, some c) => (t, some c)
  | (t, none) => (t ++ b.1, b.2)

namespace JobSubmitWorker

/-- Outcomes of the external calls that one JobSubmitWorker callback run
can make.  Calls inside prepare_and_trigger_slurm_job are caught by the
callback's try/except blocks, so only success/failure matters for them;
the two database writes after a successful submission and the writes in
the failure handler are not inside any try block, so their failures
propagate out of the callback. -/
structure SubmitEnv where
  /-- json decoding and field extraction (including int parses) succeed -/
  decodeOk : Bool
  /-- sync_db_get_workflow / sync_db_get_workspace both succeed -/
  readOk : Bool
  /-- sync_db_update_workspace to TRANSFERRING_TO_HPC succeeds -/
  updWsTransOk : Bool
  /-- sync_db_update_workflow_job to TRANSFERRING_TO_HPC succeeds -/
  updJobTransOk : Bool
  /-- hpc_io_transfer.pack_and_put_slurm_workspace succeeds -/
  packPutOk : Bool
  /-- hpc_executor.trigger_slurm_job succeeds -/
  triggerOk : Bool
  /-- the slurm job id returned by trigger_slurm_job on success -/
  triggerJobId : String
  /-- sync_db_increase_processing_stats in the trigger-failure handler succeeds -/
  incStatsFailOk : Bool
  /-- sync_db_create_hpc_slurm_job succeeds -/
  createHandleOk : Bool
  /-- post-success sync_db_update_workflow_job to PENDING succeeds -/
  postUpdJobOk : Bool
  /-- post-success sync_db_update_workspace to PENDING succeeds -/
  postUpdWsOk : Bool
  /-- sync_db_update_workflow_job to FAILED in handle_message_failure succeeds -/
  failUpdJobOk : Bool
  /-- sync_db_update_workspace to READY in handle_message_failure succeeds -/
  failUpdWsOk : Bool
deriving DecidableEq, Repr

/-- JobSubmitWorker.__handle_message_failure: set the job FAILED, set the
workspace READY only when set_ws_ready, then acknowledge.  The
interruption flag only changes logging and skipping the field reset; in
both cases the message is acknowledged, never negatively acknowledged.
The database writes here are not guarded, so their exceptions propagate. -/
def handle_message_failure (env : SubmitEnv) (interruption set_ws_ready : Bool) :
    List Ev × Outcome :=
  if env.failUpdJobOk then
    if set_ws_ready then
      if env.failUpdWsOk then
        ([Ev.dbUpdateJob StateJob.FAILED, Ev.dbUpdateWorkspace StateWorkspace.READY none,
          Ev.ackMessage], Outcome.completed)
      else ([Ev.dbUpdateJob StateJob.FAILED], Outcome.crashed)
    else ([Ev.dbUpdateJob StateJob.FAILED, Ev.ackMessage], Outcome.completed)
  else ([], Outcome.crashed)

/-- JobSubmitWorker.prepare_and_trigger_slurm_job: stage (workspace and
job to TRANSFERRING_TO_HPC, pack and put the workspace), trigger the
slurm job (on trigger failure increase pages_failed by the workspace's
page count before re-raising), then create the hpc slurm job record.
Returns the events performed and whether it returned normally (true) or
raised (false); every raise here is caught by the callback. -/
def prepare_and_trigger_slurm_job (env : SubmitEnv) (db : DBState) : List Ev × Bool :=
  if env.updWsTransOk then
    if env.updJobTransOk then
      if env.packPutOk then
        if env.triggerOk then
          if env.createHandleOk then
            ([Ev.dbUpdateWorkspace StateWorkspace.TRANSFERRING_TO_HPC none,
              Ev.dbUpdateJob StateJob.TRANSFERRING_TO_HPC, Ev.hpcPackAndPut,
              Ev.hpcTriggerSlurm, Ev.dbCreateHpcSlurmJob env.triggerJobId], true)
          else
            ([Ev.dbUpdateWorkspace StateWorkspace.TRANSFERRING_TO_HPC none,
              Ev.dbUpdateJob StateJob.TRANSFERRING_TO_HPC, Ev.hpcPackAndPut,
              Ev.hpcTriggerSlurm], false)
        else
          if env.incStatsFailOk then
            ([Ev.dbUpdateWorkspace StateWorkspace.TRANSFERRING_TO_HPC none,
              Ev.dbUpdateJob StateJob.TRANSFERRING_TO_HPC, Ev.hpcPackAndPut,
              Ev.dbIncStats 0 db.wsPagesAmount], false)
          else
            ([Ev.dbUpdateWorkspace StateWorkspace.TRANSFERRING_TO_HPC none,
              Ev.dbUpdateJob StateJob.TRANSFERRING_TO_HPC, Ev.hpcPackAndPut], false)
      else
        ([Ev.dbUpdateWorkspace StateWorkspace.TRANSFERRING_TO_HPC none,
          Ev.dbUpdateJob StateJob.TRANSFERRING_TO_HPC], false)
    else ([Ev.dbUpdateWorkspace StateWorkspace.TRANSFERRING_TO_HPC none], false)
  else ([], false)

/-- JobSubmitWorker.__callback: decode (failure goes to
handle_message_failure without set_ws_ready), load workflow and
workspace records (failure goes to handle_message_failure with
set_ws_ready), run prepare_and_trigger_slurm_job (failure goes to
handle_message_failure with set_ws_ready), then set job PENDING,
workspace PENDING and acknowledge.  The two post-success updates are
outside every try block, so their exceptions propagate out. -/
def callback (env : SubmitEnv) (db : DBState) : List Ev × Outcome :=
  if env.decodeOk then
    if env.readOk then
      let pr := prepare_and_trigger_slurm_job env db
      if pr.2 then
        if env.postUpdJobOk then
          if env.postUpdWsOk then
            (pr.1 ++ [Ev.dbUpdateJob StateJob.PENDING,
              Ev.dbUpdateWorkspace StateWorkspace.PENDING none, Ev.ackMessage],
             Outcome.completed)
          else (pr.1 ++ [Ev.dbUpdateJob StateJob.PENDING], Outcome.crashed)
        else (pr.1, Outcome.crashed)
      else
        let hf := handle_message_failure env false true
        (pr.1 ++ hf.1, hf.2)
    else handle_message_failure env false true
  else handle_message_failure env false false

/-- JobSubmitWorker.signal_handler: when a message is in flight, run
handle_message_failure with interruption (no set_ws_ready), then
disconnect from the channel and exit. -/
def signal_handler (env : SubmitEnv) (has_consumed_message : Bool) : List Ev × Outcome :=
  if has_consumed_message then
    let hf := handle_message_failure env true false
    match hf.2 with
    | Outcome.completed => (hf.1 ++ [Ev.disconnect], Outcome.completed)
    | Outcome.crashed => (hf.1, Outcome.crashed)
  else ([Ev.disconnect], Outcome.completed)

end JobSubmitWorker

namespace JobStatusWorker

/-- Outcomes of the external calls that one JobStatusWorker callback run
can make.  Database reads and the state-handling step are in separate
try blocks; the callback catches every exception from decoding and
reading, but only ValueError from the state-handling step, so any other
exception class there propagates out of the callback. -/
structure StatusEnv where
  /-- json decoding and job_id extraction succeed -/
  decodeOk : Bool
  /-- the three database reads (workflow job, workspace, hpc slurm job) succeed -/
  readOk : Bool
  /-- hpc_executor.check_slurm_job_state outcome -/
  checkRes : CallRes
  /-- the live slurm job state reported by check_slurm_job_state -/
  newSlurmState : SlurmJobState
  /-- sync_db_update_hpc_slurm_job outcome -/
  updSlurmRes : CallRes
  /-- hpc_io_transfer.download_slurm_job_log_file outcome -/
  downloadLogRes : CallRes
  /-- sync_db_update_workspace to TRANSFERRING_FROM_HPC outcome -/
  updWsTransRes : CallRes
  /-- sync_db_update_workflow_job to TRANSFERRING_FROM_HPC outcome -/
  updJobTransRes : CallRes
  /-- get_and_unpack_slurm_workspace outcome -/
  downloadResultsRes : CallRes
  /-- whether reopening the workspace mets succeeds in extract_updated_file_groups -/
  metsReadable : Bool
  /-- the file groups read from the mets when it is readable -/
  extractedFileGroups : List String
  /-- sync_db_update_workspace to READY outcome -/
  updWsReadyRes : CallRes
  /-- sync_db_update_workflow_job to the terminal state outcome -/
  updJobTermRes : CallRes
  /-- sync_db_increase_processing_stats outcome -/
  incStatsRes : CallRes
deriving DecidableEq, Repr

/-- JobStatusWorker.__extract_updated_file_groups: reopen the workspace
mets and return its file groups; on any error return the sentinel
corrupted marker instead of raising. -/
def extract_updated_file_groups (env : StatusEnv) : List String :=
  if env.metsReadable then env.extractedFileGroups else ["CORRUPTED FILE GROUPS"]

/-- The SUCCESS branch of __handle_hpc_and_workflow_states: download the
slurm job log, set workspace and job to TRANSFERRING_FROM_HPC, download
and unpack the results, re-derive the file groups, set the workspace
READY with them, set the job SUCCESS, increase pages_succeed by the
workspace's page count. -/
def successBranch (env : StatusEnv) (db : DBState) : List Ev × Option ExcClass :=
  stepSeq (stepCall env.downloadLogRes Ev.hpcDownloadLog) <|
  stepSeq (stepCall env.updWsTransRes
    (Ev.dbUpdateWorkspace StateWorkspace.TRANSFERRING_FROM_HPC none)) <|
  stepSeq (stepCall env.updJobTransRes (Ev.dbUpdateJob StateJob.TRANSFERRING_FROM_HPC)) <|
  stepSeq (stepCall env.downloadResultsRes Ev.hpcDownloadResults) <|
  stepSeq (stepCall env.updWsReadyRes
    (Ev.dbUpdateWorkspace StateWorkspace.READY (some (extract_updated_file_groups env)))) <|
  stepSeq (stepCall env.updJobTermRes (Ev.dbUpdateJob StateJob.SUCCESS))
  (stepCall env.incStatsRes (Ev.dbIncStats db.wsPagesAmount 0))

/-- The FAILED branch of __handle_hpc_and_workflow_states: download the
slurm job log, set the workspace READY (file groups untouched), set the
job FAILED, increase pages_failed by the workspace's page count. -/
def failedBranch (env : StatusEnv) (db : DBState) : List Ev × Option ExcClass :=
  stepSeq (stepCall env.downloadLogRes Ev.hpcDownloadLog) <|
  stepSeq (stepCall env.updWsReadyRes (Ev.dbUpdateWorkspace StateWorkspace.READY none)) <|
  stepSeq (stepCall env.updJobTermRes (Ev.dbUpdateJob StateJob.FAILED))
  (stepCall env.incStatsRes (Ev.dbIncStats 0 db.wsPagesAmount))

/-- JobStatusWorker.__handle_hpc_and_workflow_states: poll the live slurm
job state; persist it on the hpc slurm job record when it changed; map it
to an internal job state with StateJob.convert_from_slurm_job; when the
mapped state differs from the stored job state, run the SUCCESS branch if
it is SUCCESS and the FAILED branch if it is FAILED (the two are mutually
exclusive); otherwise perform nothing further. -/
def handle_hpc_and_workflow_states (env : StatusEnv) (db : DBState) :
    List Ev × Option ExcClass :=
  stepSeq (stepCall env.checkRes Ev.hpcCheckSlurmJobState) <|
  stepSeq (if db.slurmState = env.newSlurmState then ([], none)
           else stepCall env.updSlurmRes (Ev.dbUpdateHpcSlurmJob env.newSlurmState)) <|
  (if db.jobState = StateJob.convert_from_slurm_job env.newSlurmState then ([], none)
   else
     stepSeq
       (if StateJob.convert_from_slurm_job env.newSlurmState = StateJob.SUCCESS then
         successBranch env db else ([], none))
       (if StateJob.convert_from_slurm_job env.newSlurmState = StateJob.FAILED then
         failedBranch env db else ([], none)))

/-- JobStatusWorker.__handle_message_failure: acknowledge the message.
Unlike the submit worker, no database write happens here; the
interruption flag only changes logging and skipping the field reset. -/
def handle_message_failure (interruption : Bool) : List Ev × Outcome :=
  ([Ev.ackMessage], Outcome.completed)

/-- JobStatusWorker.__callback: decode (failure acknowledges and drops),
read the three records (failure acknowledges and drops), run the state
handler catching only ValueError (handled as message failure: acknowledge);
any other exception class propagates out; on normal return acknowledge. -/
def callback (env : StatusEnv) (db : DBState) : List Ev × Outcome :=
  if env.decodeOk then
    if env.readOk then
      match handle_hpc_and_workflow_states env db with
      | (t, some ExcClass.valueError) =>
          let hf := handle_message_failure false
          (t ++ hf.1, hf.2)
      | (t, some ExcClass.otherError) => (t, Outcome.crashed)
      | (t, none) => (t ++ [Ev.ackMessage], Outcome.completed)
    else handle_message_failure false
  else handle_message_failure false

/-- JobStatusWorker.signal_handler: when a message is in flight, run
handle_message_failure with interruption (which only acknowledges), then
disconnect from the channel and exit. -/
def signal_handler (has_consumed_message : Bool) : List Ev × Outcome :=
  if has_consumed_message then
    ((handle_message_failure true).1 ++ [Ev.disconnect], Outcome.completed)
  else ([Ev.disconnect], Outcome.completed)

end JobStatusWorker

/-! Helper lemmas about traces, acknowledgement counting and database folds. -/

theorem countAcks_append (a b : List Ev) :
    countAcks (a ++ b) = countAcks a + countAcks b := by
  simp [countAcks, List.countP_append]

theorem runDB_append (db : DBState) (a b : List Ev) :
    runDB db (a ++ b) = runDB (runDB db a) b := by
  simp [runDB, List.foldl_append]

theorem runDB_cons (db : DBState) (e : Ev) (t : List Ev) :
    runDB db (e :: t) = runDB (applyEv db e) t := rfl

theorem stepCall_snd (r : CallRes) (e : Ev) : (stepCall r e).2 = r := by
  cases r <;> rfl

theorem stepCall_mem (r : CallRes) (ev e : Ev) (h : e ∈ (stepCall r ev).1) : e = ev := by
  cases r <;> simp_all [stepCall]

theorem stepSeq_mem (a b : List Ev × Option ExcClass) (e : Ev)
    (h : e ∈ (stepSeq a b).1) : e ∈ a.1 ∨ e ∈ b.1 := by
  rcases a with ⟨t, o⟩
  cases o <;> simp_all [stepSeq]

theorem stepSeq_snd_ne (a b : List Ev × Option ExcClass)
    (ha : a.2 ≠ some ExcClass.otherError) (hb : b.2 ≠ some ExcClass.otherError) :
    (stepSeq a b).2 ≠ some ExcClass.otherError := by
  rcases a with ⟨t, o⟩
  cases o <;> simp_all [stepSeq]

theorem stepSeq_nil_right (a : List Ev × Option ExcClass) :
    (stepSeq a ([], none)).1 = a.1 := by
  rcases a with ⟨t, o⟩
  cases o <;> simp [stepSeq]

theorem stepSeq_nil_left (b : List Ev × Option ExcClass) :
    stepSeq ([], none) b = b := by
  simp [stepSeq]

theorem countAcks_stepSeq_zero (a b : List Ev × Option ExcClass)
    (ha : countAcks a.1 = 0) (hb : countAcks b.1 = 0) :
    countAcks (stepSeq a b).1 = 0 := by
  rcases a with ⟨t, o⟩
  cases o <;> simp_all [stepSeq, countAcks_append]

theorem stepCall_countAcks (r : CallRes) (e : Ev) (h : e.isAck = false) :
    countAcks (stepCall r e).1 = 0 := by
  cases r <;> simp [stepCall, countAcks, List.countP_cons, List.countP_nil, h]

/-! Structural lemmas about the status worker's terminal branches. -/

namespace JobStatusWorker

theorem successBranch_mem (env : StatusEnv) (db : DBState) (e : Ev)
    (h : e ∈ (successBranch env db).1) :
    e ∈ [Ev.hpcDownloadLog,
         Ev.dbUpdateWorkspace StateWorkspace.TRANSFERRING_FROM_HPC none,
         Ev.dbUpdateJob StateJob.TRANSFERRING_FROM_HPC,
         Ev.hpcDownloadResults,
         Ev.dbUpdateWorkspace StateWorkspace.READY (some (extract_updated_file_groups env)),
         Ev.dbUpdateJob StateJob.SUCCESS,
         Ev.dbIncStats db.wsPagesAmount 0] := by
  unfold successBranch at h
  rcases stepSeq_mem _ _ _ h with h | h
  · simp [stepCall_mem _ _ _ h]
  rcases stepSeq_mem _ _ _ h with h | h
  · simp [stepCall_mem _ _ _ h]
  rcases stepSeq_mem _ _ _ h with h | h
  · simp [stepCall_mem _ _ _ h]
  rcases stepSeq_mem _ _ _ h with h | h
  · simp [stepCall_mem _ _ _ h]
  rcases stepSeq_mem _ _ _ h with h | h
  · simp [stepCall_mem _ _ _ h]
  rcases stepSeq_mem _ _ _ h with h | h
  · simp [stepCall_mem _ _ _ h]
  simp [stepCall_mem _ _ _ h]

theorem failedBranch_mem (env : StatusEnv) (db : DBState) (e : Ev)
    (h : e ∈ (failedBranch env db).1) :
    e ∈ [Ev.hpcDownloadLog,
         Ev.dbUpdateWorkspace StateWorkspace.READY none,
         Ev.dbUpdateJob StateJob.FAILED,
         Ev.dbIncStats 0 db.wsPagesAmount] := by
  unfold failedBranch at h
  rcases stepSeq_mem _ _ _ h with h | h
  · simp [stepCall_mem _ _ _ h]
  rcases stepSeq_mem _ _ _ h with h | h
  · simp [stepCall_mem _ _ _ h]
  rcases stepSeq_mem _ _ _ h with h | h
  · simp [stepCall_mem _ _ _ h]
  simp [stepCall_mem _ _ _ h]

theorem successBranch_countAcks (env : StatusEnv) (db : DBState) :
    countAcks (successBranch env db).1 = 0 := by
  rw [countAcks, List.countP_eq_zero]
  intro e he
  have := successBranch_mem env db e he
  simp only [List.mem_cons, List.not_mem_nil, or_false] at this
  rcases this with h | h | h | h | h | h | h <;> simp [h, Ev.isAck]

theorem failedBranch_countAcks (env : StatusEnv) (db : DBState) :
    countAcks (failedBranch env db).1 = 0 := by
  rw [countAcks, List.countP_eq_zero]
  intro e he
  have := failedBranch_mem env db e he
  simp only [List.mem_cons, List.not_mem_nil, or_false] at this
  rcases this with h | h | h | h <;> simp [h, Ev.isAck]

theorem successBranch_snd_ne (env : StatusEnv) (db : DBState)
    (h1 : env.downloadLogRes ≠ some ExcClass.otherError)
    (h2 : env.updWsTransRes ≠ some ExcClass.otherError)
    (h3 : env.updJobTransRes ≠ some ExcClass.otherError)
    (h4 : env.downloadResultsRes ≠ some ExcClass.otherError)
    (h5 : env.updWsReadyRes ≠ some ExcClass.otherError)
    (h6 : env.updJobTermRes ≠ some ExcClass.otherError)
    (h7 : env.incStatsRes ≠ some ExcClass.otherError) :
    (successBranch env db).2 ≠ some ExcClass.otherError := by
  unfold successBranch
  apply stepSeq_snd_ne _ _ (by rw [stepCall_snd]; exact h1)
  apply stepSeq_snd_ne _ _ (by rw [stepCall_snd]; exact h2)
  apply stepSeq_snd_ne _ _ (by rw [stepCall_snd]; exact h3)
  apply stepSeq_snd_ne _ _ (by rw [stepCall_snd]; exact h4)
  apply stepSeq_snd_ne _ _ (by rw [stepCall_snd]; exact h5)
  exact stepSeq_snd_ne _ _ (by rw [stepCall_snd]; exact h6) (by rw [stepCall_snd]; exact h7)

theorem failedBranch_snd_ne (env : StatusEnv) (db : DBState)
    (h1 : env.downloadLogRes ≠ some ExcClass.otherError)
    (h2 : env.updWsReadyRes ≠ some ExcClass.otherError)
    (h3 : env.updJobTermRes ≠ some ExcClass.otherError)
    (h4 : env.incStatsRes ≠ some ExcClass.otherError) :
    (failedBranch env db).2 ≠ some ExcClass.otherError := by
  unfold failedBranch
  apply stepSeq_snd_ne _ _ (by rw [stepCall_snd]; exact h1)
  apply stepSeq_snd_ne _ _ (by rw [stepCall_snd]; exact h2)
  exact stepSeq_snd_ne _ _ (by rw [stepCall_snd]; exact h3) (by rw [stepCall_snd]; exact h4)

theorem successBranch_final_ws (env : StatusEnv) (db d : DBState)
    (h : Ev.dbUpdateJob StateJob.SUCCESS ∈ (successBranch env db).1) :
    (runDB d (successBranch env db).1).wsState = StateWorkspace.READY := by
  rcases env with ⟨dec, rd, cr, nss, usr, dlr, uwt, ujt, drr, mr, efg, uwr, ujr, isr⟩
  cases dlr <;> cases uwt <;> cases ujt <;> cases drr <;> cases uwr <;> cases ujr <;> cases isr <;>
    simp_all [successBranch, stepCall, stepSeq, runDB, applyEv]

theorem failedBranch_final_ws (env : StatusEnv) (db d : DBState)
    (h : Ev.dbUpdateJob StateJob.FAILED ∈ (failedBranch env db).1) :
    (runDB d (failedBranch env db).1).wsState = StateWorkspace.READY := by
  rcases env with ⟨dec, rd, cr, nss, usr, dlr, uwt, ujt, drr, mr, efg, uwr, ujr, isr⟩
  cases dlr <;> cases uwr <;> cases ujr <;> cases isr <;>
    simp_all [failedBranch, stepCall, stepSeq, runDB, applyEv]

end JobStatusWorker

namespace JobStatusWorker

theorem handler_countAcks (env : StatusEnv) (db : DBState) :
    countAcks (handle_hpc_and_workflow_states env db).1 = 0 := by
  unfold handle_hpc_and_workflow_states
  refine countAcks_stepSeq_zero _ _ (stepCall_countAcks _ _ rfl) ?_
  refine countAcks_stepSeq_zero _ _ ?_ ?_
  · split
    · rfl
    · exact stepCall_countAcks _ _ rfl
  · split
    · rfl
    · refine countAcks_stepSeq_zero _ _ ?_ ?_ <;> split
      · exact successBranch_countAcks env db
      · rfl
      · exact failedBranch_countAcks env db
      · rfl

theorem handler_snd_ne (env : StatusEnv) (db : DBState)
    (h1 : env.checkRes ≠ some ExcClass.otherError)
    (h2 : env.updSlurmRes ≠ some ExcClass.otherError)
    (h3 : env.downloadLogRes ≠ some ExcClass.otherError)
    (h4 : env.updWsTransRes ≠ some ExcClass.otherError)
    (h5 : env.updJobTransRes ≠ some ExcClass.otherError)
    (h6 : env.downloadResultsRes ≠ some ExcClass.otherError)
    (h7 : env.updWsReadyRes ≠ some ExcClass.otherError)
    (h8 : env.updJobTermRes ≠ some ExcClass.otherError)
    (h9 : env.incStatsRes ≠ some ExcClass.otherError) :
    (handle_hpc_and_workflow_states env db).2 ≠ some ExcClass.otherError := by
  unfold handle_hpc_and_workflow_states
  refine stepSeq_snd_ne _ _ (by rw [stepCall_snd]; exact h1) ?_
  refine stepSeq_snd_ne _ _ ?_ ?_
  · split
    · simp
    · rw [stepCall_snd]; exact h2
  · split
    · simp
    · refine stepSeq_snd_ne _ _ ?_ ?_ <;> split
      · exact successBranch_snd_ne env db h3 h4 h5 h6 h7 h8 h9
      · simp
      · exact failedBranch_snd_ne env db h3 h7 h8 h9
      · simp

theorem handler_terminal_ws (env : StatusEnv) (db d : DBState) (s : StateJob)
    (hmem : Ev.dbUpdateJob s ∈ (handle_hpc_and_workflow_states env db).1)
    (hterm : s = StateJob.SUCCESS ∨ s = StateJob.FAILED) :
    (runDB d (handle_hpc_and_workflow_states env db).1).wsState = StateWorkspace.READY := by
  unfold handle_hpc_and_workflow_states at hmem ⊢
  cases hc : env.checkRes with
  | some c => simp [hc, stepCall, stepSeq] at hmem
  | none =>
  by_cases hj : db.jobState = StateJob.convert_from_slurm_job env.newSlurmState
  · by_cases hs : db.slurmState = env.newSlurmState
    · simp [hc, hs, hj, stepCall, stepSeq] at hmem
    · cases hu : env.updSlurmRes <;> simp [hc, hs, hu, hj, stepCall, stepSeq] at hmem
  · by_cases hsucc : StateJob.convert_from_slurm_job env.newSlurmState = StateJob.SUCCESS
    · rw [hsucc] at hj
      have hnotf : Ev.dbUpdateJob StateJob.FAILED ∉ (successBranch env db).1 := by
        intro hx
        have := successBranch_mem env db _ hx
        simp at this
      have hws : ∀ d' : DBState, Ev.dbUpdateJob StateJob.SUCCESS ∈ (successBranch env db).1 →
          (runDB d' (successBranch env db).1).wsState = StateWorkspace.READY :=
        fun d' hx => successBranch_final_ws env db d' hx
      rcases hsb : successBranch env db with ⟨tb, ob⟩
      rw [hsb] at hnotf hws
      by_cases hs : db.slurmState = env.newSlurmState
      · cases ob with
        | none =>
          simp [hc, hs, hj, hsucc, hsb, stepCall, stepSeq, runDB, applyEv,
            List.foldl_cons, List.foldl_append] at hmem ⊢
          rcases hterm with rfl | rfl
          · exact hws _ hmem
          · exact absurd hmem hnotf
        | some c =>
          simp [hc, hs, hj, hsucc, hsb, stepCall, stepSeq, runDB, applyEv,
            List.foldl_cons, List.foldl_append] at hmem ⊢
          rcases hterm with rfl | rfl
          · exact hws _ hmem
          · exact absurd hmem hnotf
      · cases hu : env.updSlurmRes with
        | some c2 => simp [hc, hs, hu, stepCall, stepSeq] at hmem
        | none =>
          cases ob with
          | none =>
            simp [hc, hs, hu, hj, hsucc, hsb, stepCall, stepSeq, runDB, applyEv,
              List.foldl_cons, List.foldl_append] at hmem ⊢
            rcases hterm with rfl | rfl
            · exact hws _ hmem
            · exact absurd hmem hnotf
          | some c =>
            simp [hc, hs, hu, hj, hsucc, hsb, stepCall, stepSeq, runDB, applyEv,
              List.foldl_cons, List.foldl_append] at hmem ⊢
            rcases hterm with rfl | rfl
            · exact hws _ hmem
            · exact absurd hmem hnotf
    · by_cases hfail : StateJob.convert_from_slurm_job env.newSlurmState = StateJob.FAILED
      · rw [hfail] at hj
        have hnots : Ev.dbUpdateJob StateJob.SUCCESS ∉ (failedBranch env db).1 := by
          intro hx
          have := failedBranch_mem env db _ hx
          simp at this
        have hwf : ∀ d' : DBState, Ev.dbUpdateJob StateJob.FAILED ∈ (failedBranch env db).1 →
            (runDB d' (failedBranch env db).1).wsState = StateWorkspace.READY :=
          fun d' hx => failedBranch_final_ws env db d' hx
        rcases hfb : failedBranch env db with ⟨tb, ob⟩
        rw [hfb] at hnots hwf
        by_cases hs : db.slurmState = env.newSlurmState
        · simp [hc, hs, hj, hsucc, hfail, hfb, stepCall, stepSeq, runDB, applyEv,
            List.foldl_cons, List.foldl_append] at hmem ⊢
          rcases hterm with rfl | rfl
          · exact absurd hmem hnots
          · exact hwf _ hmem
        · cases hu : env.updSlurmRes with
          | some c2 => simp [hc, hs, hu, stepCall, stepSeq] at hmem
          | none =>
            simp [hc, hs, hu, hj, hsucc, hfail, hfb, stepCall, stepSeq, runDB, applyEv,
              List.foldl_cons, List.foldl_append] at hmem ⊢
            rcases hterm with rfl | rfl
            · exact absurd hmem hnots
            · exact hwf _ hmem
      · by_cases hs : db.slurmState = env.newSlurmState
        · simp [hc, hs, hj, hsucc, hfail, stepCall, stepSeq] at hmem
        · cases hu : env.updSlurmRes <;>
            simp [hc, hs, hu, hj, hsucc, hfail, stepCall, stepSeq] at hmem

end JobStatusWorker

/-! Callback-level lemmas. -/

namespace JobStatusWorker

theorem status_callback_acks (env : StatusEnv) (db : DBState)
    (h1 : env.checkRes ≠ some ExcClass.otherError)
    (h2 : env.updSlurmRes ≠ some ExcClass.otherError)
    (h3 : env.downloadLogRes ≠ some ExcClass.otherError)
    (h4 : env.updWsTransRes ≠ some ExcClass.otherError)
    (h5 : env.updJobTransRes ≠ some ExcClass.otherError)
    (h6 : env.downloadResultsRes ≠ some ExcClass.otherError)
    (h7 : env.updWsReadyRes ≠ some ExcClass.otherError)
    (h8 : env.updJobTermRes ≠ some ExcClass.otherError)
    (h9 : env.incStatsRes ≠ some ExcClass.otherError) :
    countAcks (callback env db).1 = 1 ∧ (callback env db).2 = Outcome.completed := by
  unfold callback
  cases hdec : env.decodeOk with
  | false => exact ⟨rfl, rfl⟩
  | true =>
  cases hrd : env.readOk with
  | false => exact ⟨rfl, rfl⟩
  | true =>
  rcases hh : handle_hpc_and_workflow_states env db with ⟨t, o⟩
  have hno : countAcks t = 0 := by
    have := handler_countAcks env db
    rwa [hh] at this
  have hne := handler_snd_ne env db h1 h2 h3 h4 h5 h6 h7 h8 h9
  rw [hh] at hne
  cases o with
  | none =>
    refine ⟨?_, rfl⟩
    show countAcks (t ++ [Ev.ackMessage]) = 1
    rw [countAcks_append, hno]
    rfl
  | some c =>
    cases c with
    | valueError =>
      refine ⟨?_, rfl⟩
      show countAcks (t ++ [Ev.ackMessage]) = 1
      rw [countAcks_append, hno]
      rfl
    | otherError => exact absurd rfl hne

theorem status_callback_terminal_ws (env : StatusEnv) (db : DBState) (s : StateJob)
    (hmem : Ev.dbUpdateJob s ∈ (callback env db).1)
    (hterm : s = StateJob.SUCCESS ∨ s = StateJob.FAILED) :
    (runDB db (callback env db).1).wsState = StateWorkspace.READY := by
  have hws := fun (hm : Ev.dbUpdateJob s ∈ (handle_hpc_and_workflow_states env db).1) =>
    handler_terminal_ws env db db s hm hterm
  unfold callback at hmem ⊢
  cases hdec : env.decodeOk with
  | false => simp [hdec, handle_message_failure] at hmem
  | true =>
  cases hrd : env.readOk with
  | false => simp [hdec, hrd, handle_message_failure] at hmem
  | true =>
  rcases hh : handle_hpc_and_workflow_states env db with ⟨t, o⟩
  rw [hdec, hrd] at hmem
  simp only [if_true] at hmem
  rw [hh] at hmem hws
  cases o with
  | none =>
    have hmem2 : Ev.dbUpdateJob s ∈ t := by
      have h0 : Ev.dbUpdateJob s ∈ t ++ [Ev.ackMessage] := hmem
      simp at h0
      exact h0
    show (runDB db (t ++ [Ev.ackMessage])).wsState = StateWorkspace.READY
    rw [runDB_append]
    have hr := hws hmem2
    simpa [runDB, applyEv] using hr
  | some c =>
    cases c with
    | valueError =>
      have hmem2 : Ev.dbUpdateJob s ∈ t := by
        have h0 : Ev.dbUpdateJob s ∈ t ++ [Ev.ackMessage] := hmem
        simp at h0
        exact h0
      show (runDB db (t ++ [Ev.ackMessage])).wsState = StateWorkspace.READY
      rw [runDB_append]
      have hr := hws hmem2
      simpa [runDB, applyEv] using hr
    | otherError => exact hws hmem

end JobStatusWorker

namespace JobSubmitWorker

theorem prepare_mem (env : SubmitEnv) (db : DBState) (e : Ev)
    (h : e ∈ (prepare_and_trigger_slurm_job env db).1) :
    e ∈ [Ev.dbUpdateWorkspace StateWorkspace.TRANSFERRING_TO_HPC none,
         Ev.dbUpdateJob StateJob.TRANSFERRING_TO_HPC, Ev.hpcPackAndPut,
         Ev.hpcTriggerSlurm, Ev.dbCreateHpcSlurmJob env.triggerJobId,
         Ev.dbIncStats 0 db.wsPagesAmount] := by
  rcases env with ⟨dec, rd, uw, uj, pp, tr, tid, isf, ch, pj, pw, fj, fw⟩
  cases uw <;> cases uj <;> cases pp <;> cases tr <;> cases isf <;> cases ch <;>
    simp_all [prepare_and_trigger_slurm_job] <;> tauto

theorem submit_callback_acks (env : SubmitEnv) (db : DBState)
    (h1 : env.postUpdJobOk = true) (h2 : env.postUpdWsOk = true)
    (h3 : env.failUpdJobOk = true) (h4 : env.failUpdWsOk = true) :
    countAcks (callback env db).1 = 1 ∧ (callback env db).2 = Outcome.completed := by
  rcases env with ⟨dec, rd, uw, uj, pp, tr, tid, isf, ch, pj, pw, fj, fw⟩
  have h1' : pj = true := h1
  have h2' : pw = true := h2
  have h3' : fj = true := h3
  have h4' : fw = true := h4
  subst h1' h2' h3' h4'
  cases dec <;> cases rd <;> cases uw <;> cases uj <;> cases pp <;> cases tr <;>
    cases isf <;> cases ch <;>
    simp [callback, prepare_and_trigger_slurm_job, handle_message_failure, countAcks,
      List.countP_cons, List.countP_nil, List.countP_append, Ev.isAck]

end JobSubmitWorker

namespace JobSubmitWorker

theorem submit_callback_terminal_ws (env : SubmitEnv) (db : DBState) (s : StateJob)
    (hdec : env.decodeOk = true) (hfw : env.failUpdWsOk = true)
    (hmem : Ev.dbUpdateJob s ∈ (callback env db).1)
    (hterm : s = StateJob.SUCCESS ∨ s = StateJob.FAILED) :
    (runDB db (callback env db).1).wsState = StateWorkspace.READY := by
  have hpm := fun (hm : Ev.dbUpdateJob s ∈ (prepare_and_trigger_slurm_job env db).1) =>
    prepare_mem env db _ hm
  unfold callback at hmem ⊢
  cases hrd : env.readOk with
  | false =>
    cases hfj : env.failUpdJobOk with
    | false => simp [hdec, hrd, hfj, handle_message_failure] at hmem
    | true => simp [hdec, hrd, hfj, hfw, handle_message_failure, runDB, applyEv]
  | true =>
  rcases hpr : prepare_and_trigger_slurm_job env db with ⟨tp, b⟩
  have hpm2 : Ev.dbUpdateJob s ∈ tp →
      Ev.dbUpdateJob s ∈ [Ev.dbUpdateWorkspace StateWorkspace.TRANSFERRING_TO_HPC none,
        Ev.dbUpdateJob StateJob.TRANSFERRING_TO_HPC, Ev.hpcPackAndPut,
        Ev.hpcTriggerSlurm, Ev.dbCreateHpcSlurmJob env.triggerJobId,
        Ev.dbIncStats 0 db.wsPagesAmount] := by
    intro hm
    apply hpm
    rw [hpr]
    exact hm
  cases b with
  | true =>
    exfalso
    cases hpj : env.postUpdJobOk with
    | false =>
      simp [hdec, hrd, hpr, hpj, handle_message_failure] at hmem
      have := hpm2 hmem
      rcases hterm with rfl | rfl <;> simp at this
    | true =>
      cases hpw : env.postUpdWsOk with
      | false =>
        simp [hdec, hrd, hpr, hpj, hpw, handle_message_failure] at hmem
        rcases hmem with hmem | hmem
        · have := hpm2 hmem
          rcases hterm with rfl | rfl <;> simp at this
        · rcases hterm with rfl | rfl <;> simp_all
      | true =>
        simp [hdec, hrd, hpr, hpj, hpw, handle_message_failure] at hmem
        rcases hmem with hmem | hmem
        · have := hpm2 hmem
          rcases hterm with rfl | rfl <;> simp at this
        · rcases hterm with rfl | rfl <;> simp_all
  | false =>
    cases hfj : env.failUpdJobOk with
    | false =>
      simp [hdec, hrd, hpr, hfj, handle_message_failure] at hmem
      exfalso
      have := hpm2 hmem
      rcases hterm with rfl | rfl <;> simp at this
    | true =>
      simp [hdec, hrd, hpr, hfj, hfw, handle_message_failure, runDB, applyEv,
        List.foldl_append]

end JobSubmitWorker

/-! Concrete example environments and database states used by the
witnesses and counterexamples below. -/

/-- A freshly queued job and workspace, before any staging. -/
def dbQ : DBState :=
  ⟨StateJob.QUEUED, StateWorkspace.QUEUED, ["DEFAULT"], 5, SlurmJobState.PENDING, 0, none, 0, 0⟩

/-- A submitted job waiting in the remote scheduler. -/
def dbP : DBState :=
  ⟨StateJob.PENDING, StateWorkspace.PENDING, ["DEFAULT"], 7, SlurmJobState.PENDING, 1,
   some "4242", 10, 3⟩

/-- A job already finalized as SUCCESS with its workspace READY. -/
def dbS : DBState :=
  ⟨StateJob.SUCCESS, StateWorkspace.READY, ["DEFAULT", "OCR-D-OUT"], 7, SlurmJobState.COMPLETED,
   1, some "4242", 17, 3⟩

/-- A job caught mid-staging (both job and workspace transferring). -/
def dbT : DBState :=
  ⟨StateJob.TRANSFERRING_TO_HPC, StateWorkspace.TRANSFERRING_TO_HPC, ["DEFAULT"], 5,
   SlurmJobState.PENDING, 0, none, 0, 0⟩

/-- Submit run where every external call succeeds. -/
def subEnvOk : JobSubmitWorker.SubmitEnv :=
  ⟨true, true, true, true, true, true, "4242", true, true, true, true, true, true⟩

/-- Submit run whose message fails to decode. -/
def subEnvDecodeFail : JobSubmitWorker.SubmitEnv :=
  ⟨false, true, true, true, true, true, "4242", true, true, true, true, true, true⟩

/-- Submit run whose database reads fail. -/
def subEnvReadFail : JobSubmitWorker.SubmitEnv :=
  ⟨true, false, true, true, true, true, "4242", true, true, true, true, true, true⟩

/-- Submit run where packing and uploading the workspace fails. -/
def subEnvPackFail : JobSubmitWorker.SubmitEnv :=
  ⟨true, true, true, true, false, true, "4242", true, true, true, true, true, true⟩

/-- Submit run where triggering the slurm job fails. -/
def subEnvTrigFail : JobSubmitWorker.SubmitEnv :=
  ⟨true, true, true, true, true, false, "4242", true, true, true, true, true, true⟩

/-- Submit run where the post-success job update raises. -/
def subEnvPostFail : JobSubmitWorker.SubmitEnv :=
  ⟨true, true, true, true, true, true, "4242", true, true, false, true, true, true⟩

/-- Status run where every external call succeeds and the scheduler
reports a completed job. -/
def stEnvOk : JobStatusWorker.StatusEnv :=
  ⟨true, true, none, SlurmJobState.COMPLETED, none, none, none, none, none, true,
   ["OCR-D-BIN", "OCR-D-OUT"], none, none, none⟩

/-- Status run where every external call succeeds and the scheduler
reports a failed job. -/
def stEnvFail : JobStatusWorker.StatusEnv :=
  ⟨true, true, none, SlurmJobState.FAILED, none, none, none, none, none, true,
   [], none, none, none⟩

/-- Status run where every external call succeeds and the scheduler
reports a still-running job. -/
def stEnvRun : JobStatusWorker.StatusEnv :=
  ⟨true, true, none, SlurmJobState.RUNNING, none, none, none, none, none, true,
   [], none, none, none⟩

/-- Status run whose database reads fail. -/
def stEnvReadFail : JobStatusWorker.StatusEnv :=
  ⟨true, false, none, SlurmJobState.COMPLETED, none, none, none, none, none, true,
   [], none, none, none⟩

/-! Claim C1. -/

/-- Claim C1 counterexample: when the post-success database update to
PENDING raises (it sits outside every try block in
JobSubmitWorker.__callback), the exception propagates out of the
callback and the consumed message receives no acknowledgement at all,
refuting the claim that every handling path issues exactly one
acknowledgement and lets no exception propagate. -/
theorem C1_counterexample :
    (JobSubmitWorker.callback subEnvPostFail dbQ).2 = Outcome.crashed ∧
    countAcks (JobSubmitWorker.callback subEnvPostFail dbQ).1 = 0 := by
  decide

/-- Claim C1 (amended): on every handling path on which the worker's
own unguarded finalization writes succeed (the submit worker's
failure-path and post-success updates) and, in the status worker, any
exception escaping the state-handling step is a ValueError, the worker
issues exactly one acknowledgement and the callback returns normally,
for both workers. -/
theorem C1_amended_exactly_one_ack
    (senv : JobSubmitWorker.SubmitEnv) (sdb : DBState)
    (qenv : JobStatusWorker.StatusEnv) (qdb : DBState)
    (hs1 : senv.postUpdJobOk = true) (hs2 : senv.postUpdWsOk = true)
    (hs3 : senv.failUpdJobOk = true) (hs4 : senv.failUpdWsOk = true)
    (hq1 : qenv.checkRes ≠ some ExcClass.otherError)
    (hq2 : qenv.updSlurmRes ≠ some ExcClass.otherError)
    (hq3 : qenv.downloadLogRes ≠ some ExcClass.otherError)
    (hq4 : qenv.updWsTransRes ≠ some ExcClass.otherError)
    (hq5 : qenv.updJobTransRes ≠ some ExcClass.otherError)
    (hq6 : qenv.downloadResultsRes ≠ some ExcClass.otherError)
    (hq7 : qenv.updWsReadyRes ≠ some ExcClass.otherError)
    (hq8 : qenv.updJobTermRes ≠ some ExcClass.otherError)
    (hq9 : qenv.incStatsRes ≠ some ExcClass.otherError) :
    countAcks (JobSubmitWorker.callback senv sdb).1 = 1 ∧
    (JobSubmitWorker.callback senv sdb).2 = Outcome.completed ∧
    countAcks (JobStatusWorker.callback qenv qdb).1 = 1 ∧
    (JobStatusWorker.callback qenv qdb).2 = Outcome.completed := by
  obtain ⟨a1, a2⟩ := JobSubmitWorker.submit_callback_acks senv sdb hs1 hs2 hs3 hs4
  obtain ⟨b1, b2⟩ :=
    JobStatusWorker.status_callback_acks qenv qdb hq1 hq2 hq3 hq4 hq5 hq6 hq7 hq8 hq9
  exact ⟨a1, a2, b1, b2⟩

/-- Claim C1 witness: the amended theorem applied to an all-succeeding
submit run on a queued job and an all-succeeding status run on a
pending job. -/
theorem C1_witness :
    countAcks (JobSubmitWorker.callback subEnvOk dbQ).1 = 1 ∧
    (JobSubmitWorker.callback subEnvOk dbQ).2 = Outcome.completed ∧
    countAcks (JobStatusWorker.callback stEnvOk dbP).1 = 1 ∧
    (JobStatusWorker.callback stEnvOk dbP).2 = Outcome.completed :=
  C1_amended_exactly_one_ack subEnvOk dbQ stEnvOk dbP rfl rfl rfl rfl
    (by decide) (by decide) (by decide) (by decide) (by decide) (by decide) (by decide)
    (by decide) (by decide)

/-! Claim C2. -/

/-- Claim C2 counterexample: on the submit worker's decode-error path
the job is finalized as FAILED but the workspace is left in its current
state (no workspace id is known from an undecodable message), so a job
reaches a terminal outcome while its workspace is not READY. -/
theorem C2_counterexample :
    (runDB dbQ (JobSubmitWorker.callback subEnvDecodeFail dbQ).1).jobState = StateJob.FAILED ∧
    (runDB dbQ (JobSubmitWorker.callback subEnvDecodeFail dbQ).1).wsState ≠
      StateWorkspace.READY := by
  decide

/-- Claim C2 (amended): whenever a handling path writes a terminal job
state (SUCCESS or FAILED), the workspace ends in state READY — for the
submit worker under the proviso that the message decoded (on the
decode-error path the workspace is untouched) and the failure-path
workspace write succeeds; for the status worker unconditionally. -/
theorem C2_amended_terminal_implies_ws_ready
    (senv : JobSubmitWorker.SubmitEnv) (sdb : DBState)
    (qenv : JobStatusWorker.StatusEnv) (qdb : DBState) (s s' : StateJob)
    (hdec : senv.decodeOk = true) (hfw : senv.failUpdWsOk = true) :
    (Ev.dbUpdateJob s ∈ (JobSubmitWorker.callback senv sdb).1 →
      (s = StateJob.SUCCESS ∨ s = StateJob.FAILED) →
      (runDB sdb (JobSubmitWorker.callback senv sdb).1).wsState = StateWorkspace.READY) ∧
    (Ev.dbUpdateJob s' ∈ (JobStatusWorker.callback qenv qdb).1 →
      (s' = StateJob.SUCCESS ∨ s' = StateJob.FAILED) →
      (runDB qdb (JobStatusWorker.callback qenv qdb).1).wsState = StateWorkspace.READY) :=
  ⟨fun hmem hterm => JobSubmitWorker.submit_callback_terminal_ws senv sdb s hdec hfw hmem hterm,
   fun hmem hterm => JobStatusWorker.status_callback_terminal_ws qenv qdb s' hmem hterm⟩

/-- Claim C2 witness: the amended theorem applied to a submit run whose
database reads fail (job finalized FAILED, workspace released READY)
and a status run that finalizes a completed job (job SUCCESS, workspace
READY). -/
theorem C2_witness :
    (runDB dbQ (JobSubmitWorker.callback subEnvReadFail dbQ).1).wsState =
      StateWorkspace.READY ∧
    (runDB dbP (JobStatusWorker.callback stEnvOk dbP).1).wsState = StateWorkspace.READY :=
  ⟨(C2_amended_terminal_implies_ws_ready subEnvReadFail dbQ stEnvOk dbP StateJob.FAILED
      StateJob.SUCCESS rfl rfl).1 (by decide) (Or.inr rfl),
   (C2_amended_terminal_implies_ws_ready subEnvReadFail dbQ stEnvOk dbP StateJob.FAILED
      StateJob.SUCCESS rfl rfl).2 (by decide) (Or.inl rfl)⟩

/-! Claim C3. -/

/-- Claim C3 counterexample: a transfer failure after staging began
(pack-and-put raises after the workspace and job were moved to
TRANSFERRING_TO_HPC) finalizes the job FAILED, releases the workspace
READY and acknowledges — but pages_failed is NOT incremented: only a
trigger (submit) failure increments it in
JobSubmitWorker.prepare_and_trigger_slurm_job. -/
theorem C3_counterexample :
    (JobSubmitWorker.callback subEnvPackFail dbQ).1 =
      [Ev.dbUpdateWorkspace StateWorkspace.TRANSFERRING_TO_HPC none,
       Ev.dbUpdateJob StateJob.TRANSFERRING_TO_HPC,
       Ev.dbUpdateJob StateJob.FAILED,
       Ev.dbUpdateWorkspace StateWorkspace.READY none, Ev.ackMessage] ∧
    (runDB dbQ (JobSubmitWorker.callback subEnvPackFail dbQ).1).pagesFailed ≠
      dbQ.pagesFailed + dbQ.wsPagesAmount := by
  decide

/-- Claim C3 (amended): in the submit worker, a failure after staging
began finalizes the job FAILED, sets the workspace READY and issues one
acknowledgement, but pages_failed is incremented by the workspace's
page count only on a submit (trigger) failure; on a transfer
(pack-and-put) failure the counter is unchanged. -/
theorem C3_amended_post_staging_failure
    (env : JobSubmitWorker.SubmitEnv) (db : DBState)
    (hdec : env.decodeOk = true) (hrd : env.readOk = true)
    (hfj : env.failUpdJobOk = true) (hfw : env.failUpdWsOk = true)
    (hisf : env.incStatsFailOk = true) :
    (env.updWsTransOk = true → env.updJobTransOk = true → env.packPutOk = true →
      env.triggerOk = false →
      (runDB db (JobSubmitWorker.callback env db).1).jobState = StateJob.FAILED ∧
      (runDB db (JobSubmitWorker.callback env db).1).wsState = StateWorkspace.READY ∧
      (runDB db (JobSubmitWorker.callback env db).1).pagesFailed =
        db.pagesFailed + db.wsPagesAmount ∧
      countAcks (JobSubmitWorker.callback env db).1 = 1) ∧
    (env.updWsTransOk = true → env.updJobTransOk = true → env.packPutOk = false →
      (runDB db (JobSubmitWorker.callback env db).1).jobState = StateJob.FAILED ∧
      (runDB db (JobSubmitWorker.callback env db).1).wsState = StateWorkspace.READY ∧
      (runDB db (JobSubmitWorker.callback env db).1).pagesFailed = db.pagesFailed ∧
      countAcks (JobSubmitWorker.callback env db).1 = 1) := by
  constructor
  · intro h1 h2 h3 h4
    unfold JobSubmitWorker.callback JobSubmitWorker.prepare_and_trigger_slurm_job
      JobSubmitWorker.handle_message_failure
    simp [hdec, hrd, hfj, hfw, hisf, h1, h2, h3, h4, runDB, applyEv, countAcks,
      List.countP_cons, List.countP_nil, List.countP_append, Ev.isAck, List.foldl_append]
  · intro h1 h2 h3
    unfold JobSubmitWorker.callback JobSubmitWorker.prepare_and_trigger_slurm_job
      JobSubmitWorker.handle_message_failure
    simp [hdec, hrd, hfj, hfw, hisf, h1, h2, h3, runDB, applyEv, countAcks,
      List.countP_cons, List.countP_nil, List.countP_append, Ev.isAck, List.foldl_append]

/-- Claim C3 witness: the amended theorem applied to a trigger failure
(first conjunct: stats incremented) and to a pack-and-put failure
(second conjunct: stats unchanged) on a queued job. -/
theorem C3_witness :
    ((runDB dbQ (JobSubmitWorker.callback subEnvTrigFail dbQ).1).pagesFailed =
      dbQ.pagesFailed + dbQ.wsPagesAmount ∧
     countAcks (JobSubmitWorker.callback subEnvTrigFail dbQ).1 = 1) ∧
    ((runDB dbQ (JobSubmitWorker.callback subEnvPackFail dbQ).1).pagesFailed =
      dbQ.pagesFailed ∧
     countAcks (JobSubmitWorker.callback subEnvPackFail dbQ).1 = 1) := by
  have ht := (C3_amended_post_staging_failure subEnvTrigFail dbQ rfl rfl rfl rfl rfl).1
    rfl rfl rfl rfl
  have hp := (C3_amended_post_staging_failure subEnvPackFail dbQ rfl rfl rfl rfl rfl).2
    rfl rfl rfl
  exact ⟨⟨ht.2.2.1, ht.2.2.2⟩, ⟨hp.2.2.1, hp.2.2.2⟩⟩

/-! Claim C4. -/

/-- Claim C4 counterexample: on a store read failure the status worker
only acknowledges and drops the message — the job is NOT marked FAILED
(JobStatusWorker.__handle_message_failure performs no database write),
refuting the claim for the status worker. -/
theorem C4_counterexample :
    JobStatusWorker.callback stEnvReadFail dbP = ([Ev.ackMessage], Outcome.completed) ∧
    (runDB dbP (JobStatusWorker.callback stEnvReadFail dbP).1).jobState ≠ StateJob.FAILED := by
  decide

/-- Claim C4 (amended): on a store read failure the submit worker marks
the job FAILED, sets the workspace READY and acknowledges; the status
worker acknowledges and drops the message without performing any
database write. -/
theorem C4_amended_store_read_failure
    (senv : JobSubmitWorker.SubmitEnv) (sdb : DBState)
    (qenv : JobStatusWorker.StatusEnv) (qdb : DBState)
    (h1 : senv.decodeOk = true) (h2 : senv.readOk = false)
    (h3 : senv.failUpdJobOk = true) (h4 : senv.failUpdWsOk = true)
    (h5 : qenv.decodeOk = true) (h6 : qenv.readOk = false) :
    JobSubmitWorker.callback senv sdb =
      ([Ev.dbUpdateJob StateJob.FAILED, Ev.dbUpdateWorkspace StateWorkspace.READY none,
        Ev.ackMessage], Outcome.completed) ∧
    (runDB sdb (JobSubmitWorker.callback senv sdb).1).jobState = StateJob.FAILED ∧
    (runDB sdb (JobSubmitWorker.callback senv sdb).1).wsState = StateWorkspace.READY ∧
    JobStatusWorker.callback qenv qdb = ([Ev.ackMessage], Outcome.completed) ∧
    runDB qdb (JobStatusWorker.callback qenv qdb).1 = qdb := by
  refine ⟨?_, ?_, ?_, ?_, ?_⟩ <;>
    simp [JobSubmitWorker.callback, JobStatusWorker.callback,
      JobSubmitWorker.handle_message_failure, JobStatusWorker.handle_message_failure,
      h1, h2, h3, h4, h5, h6, runDB, applyEv]

/-- Claim C4 witness: the amended theorem applied to read failures on a
queued submit message and a pending status message. -/
theorem C4_witness :
    JobSubmitWorker.callback subEnvReadFail dbQ =
      ([Ev.dbUpdateJob StateJob.FAILED, Ev.dbUpdateWorkspace StateWorkspace.READY none,
        Ev.ackMessage], Outcome.completed) ∧
    (runDB dbQ (JobSubmitWorker.callback subEnvReadFail dbQ).1).jobState = StateJob.FAILED ∧
    (runDB dbQ (JobSubmitWorker.callback subEnvReadFail dbQ).1).wsState =
      StateWorkspace.READY ∧
    JobStatusWorker.callback stEnvReadFail dbP = ([Ev.ackMessage], Outcome.completed) ∧
    runDB dbP (JobStatusWorker.callback stEnvReadFail dbP).1 = dbP :=
  C4_amended_store_read_failure subEnvReadFail dbQ stEnvReadFail dbP rfl rfl rfl rfl rfl rfl

/-! Claim C5. -/

/-- Claim C5 (confirmed): when the stored job state already equals the
terminal state mapped from the freshly polled remote state, the guard
old_job_state != new_job_state skips both terminal branches, so
redelivery changes neither the processing stats nor the workspace file
groups (nor the job or workspace state). -/
theorem C5_terminal_redelivery_noop
    (env : JobStatusWorker.StatusEnv) (db : DBState)
    (hmap : StateJob.convert_from_slurm_job env.newSlurmState = db.jobState)
    (hterm : db.jobState = StateJob.SUCCESS ∨ db.jobState = StateJob.FAILED) :
    (runDB db (JobStatusWorker.callback env db).1).pagesSucceed = db.pagesSucceed ∧
    (runDB db (JobStatusWorker.callback env db).1).pagesFailed = db.pagesFailed ∧
    (runDB db (JobStatusWorker.callback env db).1).wsFileGroups = db.wsFileGroups ∧
    (runDB db (JobStatusWorker.callback env db).1).wsState = db.wsState ∧
    (runDB db (JobStatusWorker.callback env db).1).jobState = db.jobState := by
  unfold JobStatusWorker.callback JobStatusWorker.handle_hpc_and_workflow_states
  rw [hmap]
  cases hdec : env.decodeOk with
  | false => simp [JobStatusWorker.handle_message_failure, runDB, applyEv]
  | true =>
  cases hrd : env.readOk with
  | false => simp [JobStatusWorker.handle_message_failure, runDB, applyEv]
  | true =>
  cases hcr : env.checkRes with
  | some c =>
    cases c <;>
      simp [stepCall, stepSeq, JobStatusWorker.handle_message_failure, runDB, applyEv]
  | none =>
    by_cases hs : db.slurmState = env.newSlurmState
    · simp [hs, stepCall, stepSeq, runDB, applyEv]
    · cases hu : env.updSlurmRes with
      | some c =>
        cases c <;>
          simp [hs, stepCall, stepSeq, JobStatusWorker.handle_message_failure, runDB, applyEv]
      | none => simp [hs, stepCall, stepSeq, runDB, applyEv]

/-- Claim C5 witness: the theorem applied to a redelivered completion
message for a job already finalized as SUCCESS. -/
theorem C5_witness :
    (runDB dbS (JobStatusWorker.callback stEnvOk dbS).1).pagesSucceed = dbS.pagesSucceed ∧
    (runDB dbS (JobStatusWorker.callback stEnvOk dbS).1).pagesFailed = dbS.pagesFailed ∧
    (runDB dbS (JobStatusWorker.callback stEnvOk dbS).1).wsFileGroups = dbS.wsFileGroups ∧
    (runDB dbS (JobStatusWorker.callback stEnvOk dbS).1).wsState = dbS.wsState ∧
    (runDB dbS (JobStatusWorker.callback stEnvOk dbS).1).jobState = dbS.jobState :=
  C5_terminal_redelivery_noop stEnvOk dbS (by decide) (Or.inl (by decide))

/-! Claim C6. -/

/-- Claim C6 (confirmed): on a transition to SUCCESS with all external
calls succeeding, the status worker downloads the execution log, moves
workspace and job to TRANSFERRING_FROM_HPC, transfers and unpacks the
result workspace, re-derives the file groups (substituting the
sentinel corrupted marker when the mets is unreadable instead of
aborting), sets the workspace READY with those file groups, sets the
job SUCCESS, and increments pages_succeed by exactly the workspace's
page count, in that order, before the single acknowledgement. -/
theorem C6_success_transition
    (env : JobStatusWorker.StatusEnv) (db : DBState)
    (hdec : env.decodeOk = true) (hrd : env.readOk = true)
    (hc1 : env.checkRes = none) (hc2 : env.updSlurmRes = none)
    (hc3 : env.downloadLogRes = none) (hc4 : env.updWsTransRes = none)
    (hc5 : env.updJobTransRes = none) (hc6 : env.downloadResultsRes = none)
    (hc7 : env.updWsReadyRes = none) (hc8 : env.updJobTermRes = none)
    (hc9 : env.incStatsRes = none)
    (hconv : StateJob.convert_from_slurm_job env.newSlurmState = StateJob.SUCCESS)
    (hj : db.jobState ≠ StateJob.SUCCESS) :
    (JobStatusWorker.callback env db).1 =
      Ev.hpcCheckSlurmJobState ::
      ((if db.slurmState = env.newSlurmState then []
        else [Ev.dbUpdateHpcSlurmJob env.newSlurmState]) ++
       [Ev.hpcDownloadLog,
        Ev.dbUpdateWorkspace StateWorkspace.TRANSFERRING_FROM_HPC none,
        Ev.dbUpdateJob StateJob.TRANSFERRING_FROM_HPC,
        Ev.hpcDownloadResults,
        Ev.dbUpdateWorkspace StateWorkspace.READY
          (some (JobStatusWorker.extract_updated_file_groups env)),
        Ev.dbUpdateJob StateJob.SUCCESS,
        Ev.dbIncStats db.wsPagesAmount 0,
        Ev.ackMessage]) ∧
    (runDB db (JobStatusWorker.callback env db).1).jobState = StateJob.SUCCESS ∧
    (runDB db (JobStatusWorker.callback env db).1).wsState = StateWorkspace.READY ∧
    (runDB db (JobStatusWorker.callback env db).1).wsFileGroups =
      JobStatusWorker.extract_updated_file_groups env ∧
    (env.metsReadable = false →
      (runDB db (JobStatusWorker.callback env db).1).wsFileGroups =
        ["CORRUPTED FILE GROUPS"]) ∧
    (runDB db (JobStatusWorker.callback env db).1).pagesSucceed =
      db.pagesSucceed + db.wsPagesAmount ∧
    (JobStatusWorker.callback env db).2 = Outcome.completed := by
  unfold JobStatusWorker.callback JobStatusWorker.handle_hpc_and_workflow_states
    JobStatusWorker.successBranch JobStatusWorker.failedBranch
  rw [hconv]
  by_cases hs : db.slurmState = env.newSlurmState <;>
    simp [hdec, hrd, hc1, hc2, hc3, hc4, hc5, hc6, hc7, hc8, hc9, hs, hj, stepCall, stepSeq,
      JobStatusWorker.extract_updated_file_groups, runDB, applyEv, List.foldl_append] <;>
    (intro hf ht; rw [hf] at ht; exact absurd ht (by decide))

/-- Claim C6 witness: the theorem applied to a completed job whose
stored state is PENDING, with readable mets metadata. -/
theorem C6_witness :
    (runDB dbP (JobStatusWorker.callback stEnvOk dbP).1).jobState = StateJob.SUCCESS ∧
    (runDB dbP (JobStatusWorker.callback stEnvOk dbP).1).wsState = StateWorkspace.READY ∧
    (runDB dbP (JobStatusWorker.callback stEnvOk dbP).1).wsFileGroups =
      JobStatusWorker.extract_updated_file_groups stEnvOk ∧
    (runDB dbP (JobStatusWorker.callback stEnvOk dbP).1).pagesSucceed =
      dbP.pagesSucceed + dbP.wsPagesAmount := by
  have h := C6_success_transition stEnvOk dbP rfl rfl rfl rfl rfl rfl rfl rfl rfl rfl rfl
    (by decide) (by decide)
  exact ⟨h.2.1, h.2.2.1, h.2.2.2.1, h.2.2.2.2.2.1⟩

/-! Claim C7. -/

/-- Claim C7 (confirmed): on a transition to FAILED with all external
calls succeeding, the status worker downloads the execution log, sets
the workspace READY without touching its file groups, sets the job
FAILED, and increments pages_failed by exactly the workspace's page
count, before the single acknowledgement. -/
theorem C7_failed_transition
    (env : JobStatusWorker.StatusEnv) (db : DBState)
    (hdec : env.decodeOk = true) (hrd : env.readOk = true)
    (hc1 : env.checkRes = none) (hc2 : env.updSlurmRes = none)
    (hc3 : env.downloadLogRes = none) (hc7 : env.updWsReadyRes = none)
    (hc8 : env.updJobTermRes = none) (hc9 : env.incStatsRes = none)
    (hconv : StateJob.convert_from_slurm_job env.newSlurmState = StateJob.FAILED)
    (hj : db.jobState ≠ StateJob.FAILED) :
    (JobStatusWorker.callback env db).1 =
      Ev.hpcCheckSlurmJobState ::
      ((if db.slurmState = env.newSlurmState then []
        else [Ev.dbUpdateHpcSlurmJob env.newSlurmState]) ++
       [Ev.hpcDownloadLog,
        Ev.dbUpdateWorkspace StateWorkspace.READY none,
        Ev.dbUpdateJob StateJob.FAILED,
        Ev.dbIncStats 0 db.wsPagesAmount,
        Ev.ackMessage]) ∧
    (runDB db (JobStatusWorker.callback env db).1).jobState = StateJob.FAILED ∧
    (runDB db (JobStatusWorker.callback env db).1).wsState = StateWorkspace.READY ∧
    (runDB db (JobStatusWorker.callback env db).1).wsFileGroups = db.wsFileGroups ∧
    (runDB db (JobStatusWorker.callback env db).1).pagesFailed =
      db.pagesFailed + db.wsPagesAmount ∧
    (JobStatusWorker.callback env db).2 = Outcome.completed := by
  unfold JobStatusWorker.callback JobStatusWorker.handle_hpc_and_workflow_states
    JobStatusWorker.successBranch JobStatusWorker.failedBranch
  rw [hconv]
  by_cases hs : db.slurmState = env.newSlurmState <;>
    simp [hdec, hrd, hc1, hc2, hc3, hc7, hc8, hc9, hs, hj, stepCall, stepSeq,
      runDB, applyEv, List.foldl_append]

/-- Claim C7 witness: the theorem applied to a failed job whose stored
state is PENDING; the file groups are untouched. -/
theorem C7_witness :
    (runDB dbP (JobStatusWorker.callback stEnvFail dbP).1).jobState = StateJob.FAILED ∧
    (runDB dbP (JobStatusWorker.callback stEnvFail dbP).1).wsState = StateWorkspace.READY ∧
    (runDB dbP (JobStatusWorker.callback stEnvFail dbP).1).wsFileGroups = dbP.wsFileGroups ∧
    (runDB dbP (JobStatusWorker.callback stEnvFail dbP).1).pagesFailed =
      dbP.pagesFailed + dbP.wsPagesAmount := by
  have h := C7_failed_transition stEnvFail dbP rfl rfl rfl rfl rfl rfl rfl rfl
    (by decide) (by decide)
  exact ⟨h.2.1, h.2.2.1, h.2.2.2.1, h.2.2.2.2.1⟩

/-! Claim C8. -/

/-- Claim C8 (confirmed): a well-formed submission whose staging,
trigger and record writes all succeed produces exactly one hpc slurm
job record whose remote id is the value returned by the trigger call,
sets job and workspace to PENDING, and acknowledges only after all
writes, as the final event of the run. -/
theorem C8_successful_submission
    (env : JobSubmitWorker.SubmitEnv) (db : DBState)
    (h1 : env.decodeOk = true) (h2 : env.readOk = true)
    (h3 : env.updWsTransOk = true) (h4 : env.updJobTransOk = true)
    (h5 : env.packPutOk = true) (h6 : env.triggerOk = true)
    (h7 : env.createHandleOk = true) (h8 : env.postUpdJobOk = true)
    (h9 : env.postUpdWsOk = true) (h0 : db.slurmHandles = 0) :
    (JobSubmitWorker.callback env db).1 =
      [Ev.dbUpdateWorkspace StateWorkspace.TRANSFERRING_TO_HPC none,
       Ev.dbUpdateJob StateJob.TRANSFERRING_TO_HPC,
       Ev.hpcPackAndPut, Ev.hpcTriggerSlurm,
       Ev.dbCreateHpcSlurmJob env.triggerJobId,
       Ev.dbUpdateJob StateJob.PENDING,
       Ev.dbUpdateWorkspace StateWorkspace.PENDING none,
       Ev.ackMessage] ∧
    (runDB db (JobSubmitWorker.callback env db).1).slurmHandles = 1 ∧
    (runDB db (JobSubmitWorker.callback env db).1).slurmRemoteId = some env.triggerJobId ∧
    (runDB db (JobSubmitWorker.callback env db).1).jobState = StateJob.PENDING ∧
    (runDB db (JobSubmitWorker.callback env db).1).wsState = StateWorkspace.PENDING ∧
    countAcks (JobSubmitWorker.callback env db).1 = 1 ∧
    (JobSubmitWorker.callback env db).2 = Outcome.completed := by
  unfold JobSubmitWorker.callback JobSubmitWorker.prepare_and_trigger_slurm_job
  simp [h1, h2, h3, h4, h5, h6, h7, h8, h9, h0, runDB, applyEv, countAcks,
    List.countP_cons, List.countP_nil, List.countP_append, Ev.isAck, List.foldl_append]

/-- Claim C8 witness: the theorem applied to an all-succeeding submit
run on a queued job with no pre-existing hpc slurm job record. -/
theorem C8_witness :
    (runDB dbQ (JobSubmitWorker.callback subEnvOk dbQ).1).slurmHandles = 1 ∧
    (runDB dbQ (JobSubmitWorker.callback subEnvOk dbQ).1).slurmRemoteId = some "4242" ∧
    (runDB dbQ (JobSubmitWorker.callback subEnvOk dbQ).1).jobState = StateJob.PENDING ∧
    (runDB dbQ (JobSubmitWorker.callback subEnvOk dbQ).1).wsState = StateWorkspace.PENDING := by
  have h := C8_successful_submission subEnvOk dbQ rfl rfl rfl rfl rfl rfl rfl rfl rfl rfl
  exact ⟨h.2.1, h.2.2.1, h.2.2.2.1, h.2.2.2.2.1⟩

/-! Claim C9. -/

/-- Claim C9 counterexample: the submit worker's signal handler with a
message in flight marks the job FAILED and acknowledges, but it calls
the failure handler without set_ws_ready, so a workspace caught
mid-staging stays TRANSFERRING_TO_HPC — it is not released to READY as
the claim states. -/
theorem C9_counterexample :
    JobSubmitWorker.signal_handler subEnvOk true =
      ([Ev.dbUpdateJob StateJob.FAILED, Ev.ackMessage, Ev.disconnect], Outcome.completed) ∧
    (runDB dbT (JobSubmitWorker.signal_handler subEnvOk true).1).wsState ≠
      StateWorkspace.READY := by
  decide

/-- Claim C9 (amended): on a termination signal with a message in
flight, the submit worker marks the job FAILED (leaving the workspace
state unchanged) and acknowledges before disconnecting, while the
status worker acknowledges before disconnecting without any database
write; in both workers the in-flight message is acknowledged exactly
once, so it is not left invisible in the queue. -/
theorem C9_amended_signal_finalization
    (env : JobSubmitWorker.SubmitEnv) (db qdb : DBState)
    (hfj : env.failUpdJobOk = true) :
    JobSubmitWorker.signal_handler env true =
      ([Ev.dbUpdateJob StateJob.FAILED, Ev.ackMessage, Ev.disconnect], Outcome.completed) ∧
    (runDB db (JobSubmitWorker.signal_handler env true).1).jobState = StateJob.FAILED ∧
    (runDB db (JobSubmitWorker.signal_handler env true).1).wsState = db.wsState ∧
    countAcks (JobSubmitWorker.signal_handler env true).1 = 1 ∧
    JobStatusWorker.signal_handler true = ([Ev.ackMessage, Ev.disconnect], Outcome.completed) ∧
    runDB qdb (JobStatusWorker.signal_handler true).1 = qdb ∧
    countAcks (JobStatusWorker.signal_handler true).1 = 1 := by
  refine ⟨?_, ?_, ?_, ?_, ?_, ?_, ?_⟩ <;>
    simp [JobSubmitWorker.signal_handler, JobStatusWorker.signal_handler,
      JobSubmitWorker.handle_message_failure, JobStatusWorker.handle_message_failure,
      hfj, runDB, applyEv, countAcks, List.countP_cons, List.countP_nil, Ev.isAck]

/-- Claim C9 witness: the amended theorem applied to a signal arriving
while a staging submit message and a status message are in flight. -/
theorem C9_witness :
    (runDB dbT (JobSubmitWorker.signal_handler subEnvOk true).1).jobState = StateJob.FAILED ∧
    (runDB dbT (JobSubmitWorker.signal_handler subEnvOk true).1).wsState = dbT.wsState ∧
    countAcks (JobSubmitWorker.signal_handler subEnvOk true).1 = 1 ∧
    countAcks (JobStatusWorker.signal_handler true).1 = 1 := by
  have h := C9_amended_signal_finalization subEnvOk dbT dbP rfl
  exact ⟨h.2.1, h.2.2.1, h.2.2.2.1, h.2.2.2.2.2.2⟩

/-! Claim C10. -/

/-- Claim C10 (confirmed): when the mapped internal state is neither
SUCCESS nor FAILED and differs from the stored job state, the status
worker performs no WorkflowJob, Workspace or stats write: the only
database change of the run is the hpc slurm job record's remote state
taking the freshly polled value. -/
theorem C10_nonterminal_frame
    (env : JobStatusWorker.StatusEnv) (db : DBState)
    (hdec : env.decodeOk = true) (hrd : env.readOk = true)
    (hc1 : env.checkRes = none) (hc2 : env.updSlurmRes = none)
    (hns : StateJob.convert_from_slurm_job env.newSlurmState ≠ StateJob.SUCCESS)
    (hnf : StateJob.convert_from_slurm_job env.newSlurmState ≠ StateJob.FAILED)
    (hch : StateJob.convert_from_slurm_job env.newSlurmState ≠ db.jobState) :
    runDB db (JobStatusWorker.callback env db).1 = { db with slurmState := env.newSlurmState } ∧
    (∀ s, Ev.dbUpdateJob s ∉ (JobStatusWorker.callback env db).1) ∧
    (∀ s fgs, Ev.dbUpdateWorkspace s fgs ∉ (JobStatusWorker.callback env db).1) ∧
    (∀ a b, Ev.dbIncStats a b ∉ (JobStatusWorker.callback env db).1) := by
  have hch' : db.jobState ≠ StateJob.convert_from_slurm_job env.newSlurmState := Ne.symm hch
  unfold JobStatusWorker.callback JobStatusWorker.handle_hpc_and_workflow_states
  rw [hdec, hrd, hc1, hc2, if_neg hch', if_neg hns, if_neg hnf]
  by_cases hs : db.slurmState = env.newSlurmState
  · rw [if_pos hs]
    refine ⟨?_, ?_, ?_, ?_⟩
    · show runDB db [Ev.hpcCheckSlurmJobState, Ev.ackMessage] = _
      rw [← hs]
      rfl
    · intro s
      show Ev.dbUpdateJob s ∉ [Ev.hpcCheckSlurmJobState, Ev.ackMessage]
      simp
    · intro s fgs
      show Ev.dbUpdateWorkspace s fgs ∉ [Ev.hpcCheckSlurmJobState, Ev.ackMessage]
      simp
    · intro a b
      show Ev.dbIncStats a b ∉ [Ev.hpcCheckSlurmJobState, Ev.ackMessage]
      simp
  · rw [if_neg hs]
    refine ⟨?_, ?_, ?_, ?_⟩
    · show runDB db [Ev.hpcCheckSlurmJobState, Ev.dbUpdateHpcSlurmJob env.newSlurmState,
        Ev.ackMessage] = _
      rfl
    · intro s
      show Ev.dbUpdateJob s ∉ [Ev.hpcCheckSlurmJobState,
        Ev.dbUpdateHpcSlurmJob env.newSlurmState, Ev.ackMessage]
      simp
    · intro s fgs
      show Ev.dbUpdateWorkspace s fgs ∉ [Ev.hpcCheckSlurmJobState,
        Ev.dbUpdateHpcSlurmJob env.newSlurmState, Ev.ackMessage]
      simp
    · intro a b
      show Ev.dbIncStats a b ∉ [Ev.hpcCheckSlurmJobState,
        Ev.dbUpdateHpcSlurmJob env.newSlurmState, Ev.ackMessage]
      simp

/-- Claim C10 witness: the theorem applied to a pending job whose
remote state moved from pending to running (mapping to the
non-terminal RUNNING). -/
theorem C10_witness :
    runDB dbP (JobStatusWorker.callback stEnvRun dbP).1 =
      { dbP with slurmState := SlurmJobState.RUNNING } ∧
    (∀ s, Ev.dbUpdateJob s ∉ (JobStatusWorker.callback stEnvRun dbP).1) ∧
    (∀ s fgs, Ev.dbUpdateWorkspace s fgs ∉ (JobStatusWorker.callback stEnvRun dbP).1) ∧
    (∀ a b, Ev.dbIncStats a b ∉ (JobStatusWorker.callback stEnvRun dbP).1) :=
  C10_nonterminal_frame stEnvRun dbP rfl rfl rfl rfl (by decide) (by decide) (by decide)
